import Mathlib

/-!
# Verification of the log-report pipeline

Shallow embedding, in Lean 4, of the core of the `log-report-automation`
repository (`src/report_utils.py` and `src/main.py`): schema validation,
CSV normalization (`load_logs`), filtering (`apply_filters`), the summary
tables (`build_summary_tables`), the daily pivot (`build_daily_summary`),
the summary-sheet layout arithmetic, and the orchestrator's exit codes.

DataFrames are embedded as Lean lists of records plus an explicit list of
column labels; `pd.to_datetime` / `pd.to_numeric` with `errors="coerce"`
are embedded as arbitrary partial parsers returning `Option`, with `none`
playing the role of `NaT` / `NaN`; `sort_values(kind="mergesort")` is
embedded as `List.mergeSort` (a stable merge sort, like pandas').
-/

namespace LogReport

/-- `REQUIRED_COLUMNS` from `report_utils.py` (also duplicated in `main.py`). -/
def REQUIRED_COLUMNS : List String :=
  ["timestamp", "service", "level", "message", "response_ms"]

/-- One raw CSV row as read by `pd.read_csv`, before any coercion.
`message` is `Option` because an empty CSV cell is read as NaN by pandas. -/
structure RawRecord where
  timestamp : String
  service : String
  level : String
  message : Option String
  response_ms : String
deriving DecidableEq, Repr

/-- One normalized row of the loaded DataFrame: `timestamp` after
`pd.to_datetime(errors="coerce")` (`none` = `NaT`), `response_ms` after
`pd.to_numeric(errors="coerce")` (`none` = `NaN`), `level` upper-cased. -/
structure LogRecord where
  timestamp : Option Nat
  service : String
  level : String
  message : Option String
  response_ms : Option Int
deriving DecidableEq, Repr

/-- Python's `str.upper()` on a string, character by character
(`df["level"].str.upper()` in `load_logs`). -/
def pyUpper (s : String) : String :=
  String.mk (s.data.map Char.toUpper)

/-- `validate_logs`'s list comprehension:
`[c for c in REQUIRED_COLUMNS if c not in df.columns]`. -/
def missingColumns (cols : List String) : List String :=
  REQUIRED_COLUMNS.filter (fun c => decide (c ∉ cols))

/-- `validate_logs(df)` from `report_utils.py`: returns the message of the
`ValueError` it raises when required columns are missing, `none` otherwise. -/
def validate_logs (cols : List String) : Option String :=
  let missing := missingColumns cols
  if missing.isEmpty then none
  else some
    ("CSV schema invalid. Missing columns: " ++ String.intercalate (", ") missing
      ++ "\nExpected columns: " ++ String.intercalate (", ") REQUIRED_COLUMNS)

/-! ## Character-level facts about upper-casing -/

theorem char_toNat_ofNat_of_lt {n : Nat} (h : n < 55296) :
    (Char.ofNat n).toNat = n := by
  have hv : n.isValidChar := Or.inl h
  simp [Char.ofNat, hv, Char.ofNatAux, Char.toNat, UInt32.toNat]

theorem char_toUpper_toUpper (c : Char) : c.toUpper.toUpper = c.toUpper := by
  simp only [Char.toUpper]
  by_cases h : c.toNat ≥ 97 ∧ c.toNat ≤ 122
  · rw [if_pos h]
    have hv : (Char.ofNat (c.toNat - 32)).toNat = c.toNat - 32 :=
      char_toNat_ofNat_of_lt (by omega)
    rw [if_neg]
    omega
  · rw [if_neg h, if_neg h]

theorem pyUpper_idem (s : String) : pyUpper (pyUpper s) = pyUpper s := by
  simp only [pyUpper, List.map_map]
  refine congrArg String.mk (List.map_congr_left ?_)
  intro c _
  exact char_toUpper_toUpper c

theorem pyUpper_eq_empty_iff (s : String) : pyUpper s = "" ↔ s = "" := by
  constructor
  · intro h
    have hdata : (pyUpper s).data = ("" : String).data := congrArg String.data h
    simp only [pyUpper, List.map_eq_nil_iff] at hdata
    cases s with
    | mk data => simp_all
  · intro h
    subst h
    rfl

/-! ## Loading and normalization (`load_logs`) -/

/-- The two exceptions `load_logs` can raise: `FileNotFoundError` when the
input path does not exist, and the `ValueError` from `validate_logs`. -/
inductive LoadError where
  | fileNotFound (msg : String)
  | schemaError (msg : String)
deriving DecidableEq, Repr

/-- The row-wise effect of `load_logs`'s column assignments:
`pd.to_datetime(timestamp, errors="coerce")`,
`pd.to_numeric(response_ms, errors="coerce")`,
`level.astype(str).str.upper()`, `service.astype(str)`.
`parseTs` and `parseMs` are the partial parsers (`none` = coercion failure). -/
def normalizeRecord (parseTs : String → Option Nat) (parseMs : String → Option Int)
    (r : RawRecord) : LogRecord :=
  { timestamp := parseTs r.timestamp
    service := r.service
    level := pyUpper r.level
    message := r.message
    response_ms := parseMs r.response_ms }

/-- The key order of `sort_values("timestamp")`: ascending timestamps with
`NaT` sorted last (pandas' default `na_position="last"`). -/
def tsLe : Option Nat → Option Nat → Bool
  | some a, some b => decide (a ≤ b)
  | some _, none => true
  | none, some _ => false
  | none, none => true

/-- The record comparison used by `df.sort_values("timestamp", kind="mergesort")`. -/
def recLe (a b : LogRecord) : Bool := tsLe a.timestamp b.timestamp

/-- `load_logs(path)` from `report_utils.py`.  The filesystem is embedded by
the `fileExists` flag and the raw CSV by its column labels `cols` plus its
rows; `sort_values(kind="mergesort")` is `List.mergeSort` (stable). -/
def load_logs (parseTs : String → Option Nat) (parseMs : String → Option Int)
    (path : String) (fileExists : Bool) (cols : List String)
    (rows : List RawRecord) : Except LoadError (List LogRecord) :=
  if !fileExists then
    .error (.fileNotFound ("Input file not found: " ++ path))
  else
    match validate_logs cols with
    | some msg => .error (.schemaError msg)
    | none =>
        .ok ((rows.map (normalizeRecord parseTs parseMs)).mergeSort recLe)

/-! ## Filtering (`apply_filters` in `report_utils.py`) -/

/-- `apply_filters(df, service, level)` from `report_utils.py`.  The Python
guards `if service:` / `if level:` are falsy both for `None` and for the
empty string; the level comparison is against `str(level).upper()` while the
service comparison is verbatim. -/
def apply_filters (df : List LogRecord) (service level : Option String) :
    List LogRecord :=
  let filtered :=
    match service with
    | some s => if s = "" then df else df.filter (fun r => decide (r.service = s))
    | none => df
  match level with
  | some l => if l = "" then filtered
      else filtered.filter (fun r => decide (r.level = pyUpper l))
  | none => filtered

/-! ## Summary tables (`build_summary_tables`) -/

/-- Number of occurrences of `v` in `l` (one cell of `value_counts`). -/
def countOf (l : List String) (v : String) : Nat :=
  (l.filter (fun x => decide (x = v))).length

/-- The distinct values of `l` in first-seen order: the key order of the
hash table behind `Series.value_counts` for object dtype. -/
def firstSeen {α : Type} [DecidableEq α] : List α → List α
  | [] => []
  | x :: xs => x :: (firstSeen xs).filter (fun y => decide (y ≠ x))

/-- Descending-count comparison used to order `value_counts` output. -/
def countLe (a b : String × Nat) : Bool := decide (b.2 ≤ a.2)

/-- The unsorted `value_counts` table: distinct values in first-seen order,
each with its count. -/
def countTable (l : List String) : List (String × Nat) :=
  (firstSeen l).map (fun v => (v, countOf l v))

/-- `Series.value_counts(dropna=False)`: the count table sorted by
descending count with a stable sort, so ties stay in first-seen order. -/
def value_counts (l : List String) : List (String × Nat) :=
  (countTable l).mergeSort countLe

/-- `build_summary_tables(df)` from `report_utils.py`: the key-metrics
table (`total_rows`, `error_count`) and the per-level / per-service
`value_counts` tables. -/
def build_summary_tables (df : List LogRecord) :
    List (String × Nat) × List (String × Nat) × List (String × Nat) :=
  ( [("total_rows", df.length),
     ("error_count", (df.filter (fun r => decide (r.level = "ERROR"))).length)],
    value_counts (df.map LogRecord.level),
    value_counts (df.map LogRecord.service) )

/-! ## Daily pivot (`build_daily_summary`) -/

/-- Nanoseconds per day: pandas timestamps are nanoseconds since the epoch. -/
def NS_PER_DAY : Nat := 86400000000000

/-- `Timestamp.dt.date`: the calendar day containing an instant,
as days since the epoch. -/
def dateOf (t : Nat) : Nat := t / NS_PER_DAY

/-- `df.assign(date=df["timestamp"].dt.date)` restricted to the rows that
`pivot_table` keeps: rows whose `date` group key is not null. -/
def datedRows (df : List LogRecord) : List (Nat × LogRecord) :=
  df.filterMap (fun r => r.timestamp.map (fun t => (dateOf t, r)))

/-- Pivot index: the distinct dates, ascending (`groupby` sorts its keys). -/
def pivotDates (dr : List (Nat × LogRecord)) : List Nat :=
  (firstSeen (dr.map Prod.fst)).mergeSort (fun a b => decide (a ≤ b))

/-- Pivot columns: the distinct level labels, ascending. -/
def pivotLevels (dr : List (Nat × LogRecord)) : List String :=
  (firstSeen (dr.map (fun p => p.2.level))).mergeSort (fun a b => decide (a ≤ b))

/-- One pivot cell: `aggfunc="count"` over `values="message"` counts the
rows of the `(date, level)` group whose `message` is not null
(`fill_value=0` makes absent groups 0, which this count also yields). -/
def cellCount (dr : List (Nat × LogRecord)) (d : Nat) (lv : String) : Nat :=
  (dr.filter (fun p =>
    decide (p.1 = d) && decide (p.2.level = lv) && p.2.message.isSome)).length

/-- One row of `build_daily_summary`'s output, with the dynamic level
columns kept as label/count pairs. -/
structure DailyRow where
  date : Nat
  total_rows : Nat
  error_count : Nat
  levels : List (String × Nat)
deriving DecidableEq, Repr

/-- The level cells of one date row, in pivot column order. -/
def dailyCells (dr : List (Nat × LogRecord)) (d : Nat) : List (String × Nat) :=
  (pivotLevels dr).map (fun lv => (lv, cellCount dr d lv))

/-- One output row: `total_rows` is `daily_pivot[level_cols].sum(axis=1)`
and `error_count` is the `ERROR` column when present, else 0. -/
def dailyRowFor (dr : List (Nat × LogRecord)) (d : Nat) : DailyRow :=
  { date := d
    total_rows := ((dailyCells dr d).map Prod.snd).sum
    error_count :=
      if (pivotLevels dr).contains ("ERROR") then cellCount dr d ("ERROR") else 0
    levels := dailyCells dr d }

/-- The pivot materialized: one row per distinct date. -/
def dailyFromDated (dr : List (Nat × LogRecord)) : List DailyRow :=
  (pivotDates dr).map (dailyRowFor dr)

/-- `build_daily_summary(df)` from `report_utils.py`. -/
def build_daily_summary (df : List LogRecord) : List DailyRow :=
  dailyFromDated (datedRows df)

/-! ## Summary-sheet layout (`write_excel_report` + `style_workbook`) -/

/-- One stacked table on the `summary` sheet: its title row, its header
row, and its number of data rows (1-indexed Excel rows). -/
structure TableBlock where
  titleRow : Nat
  headerRow : Nat
  nRows : Nat
deriving DecidableEq, Repr

/-- The last Excel row a table occupies (header plus its data rows). -/
def lastRow (t : TableBlock) : Nat := t.headerRow + t.nRows

/-- Blank rows between a table's last data row and the next table's title. -/
def gapRows (t next : TableBlock) : Nat := next.titleRow - lastRow t - 1

/-- The `summary` sheet layout hard-coded by `write_excel_report`
(`startrow=1`, `startrow=6`, `startrow=9 + len(per_level)`) and
`style_workbook` (title rows 1, 6, `9 + per_level_len`; header rows 2, 7,
`10 + per_level_len`).  Key metrics always has 2 data rows. -/
def summaryLayout (perLevelLen perServiceLen : Nat) :
    TableBlock × TableBlock × TableBlock :=
  ( ⟨1, 2, 2⟩,
    ⟨6, 7, perLevelLen⟩,
    ⟨9 + perLevelLen, 10 + perLevelLen, perServiceLen⟩ )

/-! ## Orchestrator exit codes (`main.py`) -/

/-- `load_csv(path)` from `main.py`: same existence and schema checks as
`load_logs`, same coercions and stable sort, but no level upper-casing. -/
def mainNormalize (parseTs : String → Option Nat) (parseMs : String → Option Int)
    (r : RawRecord) : LogRecord :=
  { timestamp := parseTs r.timestamp
    service := r.service
    level := r.level
    message := r.message
    response_ms := parseMs r.response_ms }

/-- `load_csv` from `main.py` (the added `date` column is derived data and
not part of the record model). -/
def load_csv (parseTs : String → Option Nat) (parseMs : String → Option Int)
    (path : String) (fileExists : Bool) (cols : List String)
    (rows : List RawRecord) : Except LoadError (List LogRecord) :=
  if !fileExists then
    .error (.fileNotFound ("Input file not found: " ++ path))
  else
    match validate_logs cols with
    | some msg => .error (.schemaError msg)
    | none => .ok ((rows.map (mainNormalize parseTs parseMs)).mergeSort recLe)

/-- `apply_filters` from `main.py`: the level comparison uppers both sides
(`df["level"].astype(str).str.upper() == level.upper()`). -/
def mainApplyFilters (df : List LogRecord) (service level : Option String) :
    List LogRecord :=
  let filtered :=
    match service with
    | some s => if s = "" then df else df.filter (fun r => decide (r.service = s))
    | none => df
  match level with
  | some l => if l = "" then filtered
      else filtered.filter (fun r => decide (pyUpper r.level = pyUpper l))
  | none => filtered

/-- What one run of `main()` observably did: its exit code and whether the
report write completed. -/
structure RunResult where
  exitCode : Nat
  wroteReport : Bool
deriving DecidableEq, Repr

/-- `main()` from `main.py`: any exception while loading or filtering
returns 1; an empty filtered frame returns 0 before any write; a write
failure (embedded by `writeOk = false`) returns 1; otherwise 0. -/
def mainRun (parseTs : String → Option Nat) (parseMs : String → Option Int)
    (path : String) (fileExists : Bool) (cols : List String)
    (rows : List RawRecord) (service level : Option String)
    (writeOk : Bool) : RunResult :=
  match load_csv parseTs parseMs path fileExists cols rows with
  | .error _ => ⟨1, false⟩
  | .ok df =>
      let f := mainApplyFilters df service level
      if f.isEmpty then ⟨0, false⟩
      else if writeOk then ⟨0, true⟩ else ⟨1, false⟩

/-! ## Concrete sample data, used to evaluate the model on closed inputs -/

/-- A parser standing in for `pd.to_datetime(errors="coerce")` on the
sample rows: it recognizes one literal timestamp. -/
def sampleParseTs (s : String) : Option Nat :=
  if s = "2025-01-01 10:00:00" then some (20089 * NS_PER_DAY + 36000) else none

/-- A parser standing in for `pd.to_numeric(errors="coerce")` on the
sample rows: it recognizes one literal number. -/
def sampleParseMs (s : String) : Option Int :=
  if s = "12" then some 12 else none

/-- The row of the spec's scenario: `2025-01-01 10:00:00,api,INFO,ok,12`. -/
def sampleRaw : RawRecord :=
  { timestamp := "2025-01-01 10:00:00"
    service := "api"
    level := "info"
    message := some ("ok")
    response_ms := "12" }

/-- A row whose timestamp and latency both fail to parse. -/
def sampleBadRaw : RawRecord :=
  { timestamp := "not-a-date"
    service := "api"
    level := "ERROR"
    message := some ("boom")
    response_ms := "N/A" }

/-- `sampleRaw` after normalization. -/
def sampleLog : LogRecord := normalizeRecord sampleParseTs sampleParseMs sampleRaw

/-! ## Facts about the timestamp and count orders -/

theorem tsLe_refl (a : Option Nat) : tsLe a a = true := by
  cases a <;> simp [tsLe]

theorem tsLe_trans : ∀ a b c : Option Nat,
    tsLe a b = true → tsLe b c = true → tsLe a c = true := by
  intro a b c
  cases a <;> cases b <;> cases c <;> simp [tsLe]
  omega

theorem tsLe_total : ∀ a b : Option Nat, tsLe a b || tsLe b a := by
  intro a b
  cases a <;> cases b <;> simp [tsLe]
  omega

theorem recLe_trans : ∀ a b c : LogRecord, recLe a b → recLe b c → recLe a c :=
  fun _ _ _ hab hbc => tsLe_trans _ _ _ hab hbc

theorem recLe_total : ∀ a b : LogRecord, recLe a b || recLe b a :=
  fun _ _ => tsLe_total _ _

theorem countLe_trans : ∀ a b c : String × Nat,
    countLe a b → countLe b c → countLe a c := by
  intro a b c hab hbc
  simp only [countLe, decide_eq_true_iff] at *
  omega

theorem countLe_total : ∀ a b : String × Nat, countLe a b || countLe b a := by
  intro a b
  simp only [countLe, Bool.or_eq_true, decide_eq_true_iff]
  omega

/-! ## Stability of `mergeSort` restated through `filter` -/

/-- A stable sort leaves the subsequence of elements sharing one key value
untouched: filtering by any class of pairwise-`le`-related elements commutes
with sorting. -/
theorem filter_mergeSort_eq (le : α → α → Bool)
    (htrans : ∀ a b c : α, le a b → le b c → le a c)
    (htotal : ∀ a b : α, le a b || le b a)
    (p : α → Bool) (hp : ∀ a b : α, p a → p b → le a b)
    (l : List α) : (l.mergeSort le).filter p = l.filter p := by
  have hpw : (l.filter p).Pairwise (fun a b => le a b = true) := by
    refine List.pairwise_of_forall_mem_list ?_
    intro a ha b hb
    exact hp a b (List.mem_filter.mp ha).2 (List.mem_filter.mp hb).2
  have h1 : List.Sublist (l.filter p) (l.mergeSort le) :=
    List.sublist_mergeSort htrans htotal hpw (List.filter_sublist l)
  have h2 : List.Sublist ((l.filter p).filter p) ((l.mergeSort le).filter p) :=
    h1.filter p
  rw [List.filter_eq_self.mpr (fun a ha => (List.mem_filter.mp ha).2)] at h2
  have h3 : ((l.mergeSort le).filter p).length = (l.filter p).length :=
    ((List.mergeSort_perm l le).filter p).length_eq
  exact (h2.eq_of_length h3.symm).symm

/-! ## Facts about `validate_logs` -/

theorem mem_missingColumns {cols : List String} {c : String} :
    c ∈ missingColumns cols ↔ c ∈ REQUIRED_COLUMNS ∧ c ∉ cols := by
  simp [missingColumns, List.mem_filter]

theorem validate_logs_eq_none_iff (cols : List String) :
    validate_logs cols = none ↔ ∀ c ∈ REQUIRED_COLUMNS, c ∈ cols := by
  simp [validate_logs, missingColumns, List.isEmpty_iff, List.filter_eq_nil_iff]

theorem load_logs_ok {pt : String → Option Nat} {pn : String → Option Int}
    {path : String} {ex : Bool} {cols : List String} {rows : List RawRecord}
    {out : List LogRecord}
    (h : load_logs pt pn path ex cols rows = Except.ok out) :
    ex = true ∧ validate_logs cols = none
      ∧ out = (rows.map (normalizeRecord pt pn)).mergeSort recLe := by
  cases ex with
  | false => simp [load_logs] at h
  | true =>
    cases hv : validate_logs cols with
    | some m => simp [load_logs, hv] at h
    | none =>
      simp only [load_logs, hv, Bool.not_true, Bool.false_eq_true, if_false,
        Except.ok.injEq] at h
      exact ⟨rfl, rfl, h.symm⟩

/-! ## Claim C2: the schema validator -/

/-- **C2**: `validate_logs` fails iff at least one of the five required
columns `{timestamp, service, level, message, response_ms}` is absent; its
message names exactly the missing columns together with the full expected
column set; with all five present it returns nothing, and columns beyond
the required set never cause failure. -/
theorem validate_logs_spec (cols : List String) :
    ((validate_logs cols).isSome ↔ ∃ c ∈ REQUIRED_COLUMNS, c ∉ cols)
  ∧ ((∀ c ∈ REQUIRED_COLUMNS, c ∈ cols) → validate_logs cols = none)
  ∧ (∀ c, c ∈ missingColumns cols ↔ c ∈ REQUIRED_COLUMNS ∧ c ∉ cols)
  ∧ (∀ msg, validate_logs cols = some msg →
      msg = "CSV schema invalid. Missing columns: "
          ++ String.intercalate (", ") (missingColumns cols)
          ++ "\nExpected columns: "
          ++ String.intercalate (", ") REQUIRED_COLUMNS)
  ∧ (validate_logs cols = none → ∀ extra, validate_logs (cols ++ extra) = none) := by
  refine ⟨?_, ?_, fun c => mem_missingColumns, ?_, ?_⟩
  · rw [Option.isSome_iff_ne_none, ne_eq, validate_logs_eq_none_iff]
    push_neg
    rfl
  · exact (validate_logs_eq_none_iff cols).mpr
  · intro msg h
    by_cases he : (missingColumns cols).isEmpty
    · simp [validate_logs, he] at h
    · simp only [validate_logs] at h
      rw [if_neg he] at h
      exact (Option.some.inj h).symm
  · intro h extra
    rw [validate_logs_eq_none_iff] at h ⊢
    exact fun c hc => List.mem_append.mpr (Or.inl (h c hc))

/-- Witness for C2: the full required set validates, discharging the
all-columns-present hypothesis at a concrete column list. -/
theorem validate_logs_spec_witness :
    (∀ c ∈ REQUIRED_COLUMNS, c ∈ REQUIRED_COLUMNS)
  ∧ validate_logs REQUIRED_COLUMNS = none :=
  ⟨by decide, (validate_logs_spec REQUIRED_COLUMNS).2.1 (by decide)⟩

/-! ## Claims C5 and C9: the filter engine -/

theorem apply_filters_sublist (df : List LogRecord) (svc lvl : Option String) :
    List.Sublist (apply_filters df svc lvl) df := by
  unfold apply_filters
  cases svc <;> cases lvl <;> dsimp only <;> (try repeat' split) <;>
    first
      | exact List.Sublist.refl df
      | exact List.filter_sublist df
      | exact (List.filter_sublist _).trans (List.filter_sublist df)

/-- **C5**: level filtering is case-insensitive (filtering by `l` and by its
upper-cased form produce the same rows), service filtering compares the text
exactly, both filters combine with logical AND, an absent filter passes all
rows, and input row order is preserved. -/
theorem apply_filters_spec :
    (∀ (df : List LogRecord) (svc : Option String) (l : String),
        apply_filters df svc (some l) = apply_filters df svc (some (pyUpper l)))
  ∧ (∀ (df : List LogRecord) (s : String), s ≠ "" →
        apply_filters df (some s) none
          = df.filter (fun r => decide (r.service = s)))
  ∧ (∀ (df : List LogRecord) (s l : String), s ≠ "" → l ≠ "" →
        apply_filters df (some s) (some l)
          = df.filter (fun r =>
              decide (r.service = s) && decide (r.level = pyUpper l)))
  ∧ (∀ df : List LogRecord, apply_filters df none none = df)
  ∧ (∀ (df : List LogRecord) (svc lvl : Option String),
        List.Sublist (apply_filters df svc lvl) df) := by
  refine ⟨?_, ?_, ?_, fun df => rfl, apply_filters_sublist⟩
  · intro df svc l
    by_cases hl : l = ""
    · subst hl
      rfl
    · have hl2 : pyUpper l ≠ "" := fun h => hl ((pyUpper_eq_empty_iff l).mp h)
      cases svc <;> simp [apply_filters, hl, hl2, pyUpper_idem]
  · intro df s hs
    simp [apply_filters, hs]
  · intro df s l hs hl
    have hl2 : pyUpper l ≠ "" := fun h => hl ((pyUpper_eq_empty_iff l).mp h)
    simp [apply_filters, hs, hl, List.filter_filter]
    exact List.filter_congr (fun a _ => Bool.and_comm _ _)

/-- Witness for C5: the AND-combination conjunct applied to the sample
dataset with service `"api"` and lower-case level `"error"`. -/
theorem apply_filters_spec_witness :
    (("api" : String) ≠ "" ∧ ("error" : String) ≠ "")
  ∧ apply_filters [sampleLog] (some ("api")) (some ("error"))
      = [sampleLog].filter (fun r =>
          decide (r.service = "api") && decide (r.level = pyUpper ("error"))) :=
  ⟨⟨by decide, by decide⟩,
    apply_filters_spec.2.2.1 [sampleLog] "api" "error" (by decide) (by decide)⟩

/-- **C9**: an empty-string service or level argument is falsy for the
Python guards `if service:` / `if level:`, exactly like `None`: it means
"no filter", never an exact match against the empty string. -/
theorem apply_filters_empty_string (df : List LogRecord)
    (svc lvl : Option String) :
    apply_filters df (some ("")) lvl = apply_filters df none lvl
  ∧ apply_filters df svc (some ("")) = apply_filters df svc none
  ∧ apply_filters df (some ("")) (some ("")) = df
  ∧ apply_filters df none none = df := by
  cases svc <;> cases lvl <;> simp [apply_filters]

/-! ## Claim C1: the daily pivot's row invariant -/

/-- **C1**: every row of `build_daily_summary`'s output satisfies
`total_rows` = sum of that row's per-level count columns (the columns
other than `date`, `total_rows`, `error_count`), exactly. -/
theorem build_daily_summary_total (df : List LogRecord) (row : DailyRow)
    (h : row ∈ build_daily_summary df) :
    row.total_rows = (row.levels.map Prod.snd).sum := by
  simp only [build_daily_summary, dailyFromDated, List.mem_map] at h
  obtain ⟨d, -, rfl⟩ := h
  rfl

/-- Witness for C1: the single-row sample dataset yields a pivot row
(date 20089 = 2025-01-01) on which the invariant is evaluated. -/
theorem build_daily_summary_total_witness :
    dailyRowFor (datedRows [sampleLog]) 20089 ∈ build_daily_summary [sampleLog]
  ∧ (dailyRowFor (datedRows [sampleLog]) 20089).total_rows
      = ((dailyRowFor (datedRows [sampleLog]) 20089).levels.map Prod.snd).sum := by
  have h : dailyRowFor (datedRows [sampleLog]) 20089 ∈ build_daily_summary [sampleLog] := by
    simp [build_daily_summary, dailyFromDated, pivotDates, datedRows, firstSeen,
      sampleLog, normalizeRecord, sampleRaw, sampleParseTs, dateOf, NS_PER_DAY]
  exact ⟨h, build_daily_summary_total [sampleLog] _ h⟩

/-! ## Claim C6: ordering of the count tables -/

theorem value_counts_sorted (l : List String) :
    (value_counts l).Pairwise (fun a b => b.2 ≤ a.2) := by
  have h := List.sorted_mergeSort countLe_trans countLe_total (countTable l)
  exact h.imp (fun hab => of_decide_eq_true hab)

theorem value_counts_stable (l : List String) (n : Nat) :
    (value_counts l).filter (fun e => decide (e.2 = n))
      = (countTable l).filter (fun e => decide (e.2 = n)) := by
  apply filter_mergeSort_eq countLe countLe_trans countLe_total
  intro a b ha hb
  simp only [decide_eq_true_iff] at ha hb
  simp [countLe, ha, hb]

theorem countTable_keys (l : List String) :
    (countTable l).map Prod.fst = firstSeen l := by
  simp only [countTable, List.map_map]
  exact List.map_id (firstSeen l)

/-- **C6**: both count tables of `build_summary_tables` are ordered by
descending count, and the rows of any one count value sit exactly as they
do in the first-seen count table: ties keep first-seen order. -/
theorem build_summary_tables_order (df : List LogRecord) :
    (build_summary_tables df).2.1.Pairwise (fun a b => b.2 ≤ a.2)
  ∧ (∀ n, (build_summary_tables df).2.1.filter (fun e => decide (e.2 = n))
        = (countTable (df.map LogRecord.level)).filter (fun e => decide (e.2 = n)))
  ∧ (build_summary_tables df).2.2.Pairwise (fun a b => b.2 ≤ a.2)
  ∧ (∀ n, (build_summary_tables df).2.2.filter (fun e => decide (e.2 = n))
        = (countTable (df.map LogRecord.service)).filter
            (fun e => decide (e.2 = n)))
  ∧ (countTable (df.map LogRecord.level)).map Prod.fst
      = firstSeen (df.map LogRecord.level)
  ∧ (countTable (df.map LogRecord.service)).map Prod.fst
      = firstSeen (df.map LogRecord.service) :=
  ⟨value_counts_sorted _, fun n => value_counts_stable _ n,
    value_counts_sorted _, fun n => value_counts_stable _ n,
    countTable_keys _, countTable_keys _⟩

/-! ## Claim C4: the loader's sort is ascending, stable and idempotent -/

/-- **C4**: the dataset produced by `load_logs` is ascending in timestamp;
the records of any one timestamp appear exactly as in the normalized input
(stable sort); and an input already in ascending order comes back
unchanged. -/
theorem load_logs_sort_spec (pt : String → Option Nat) (pn : String → Option Int)
    (path : String) (cols : List String) (rows : List RawRecord)
    (out : List LogRecord)
    (h : load_logs pt pn path true cols rows = Except.ok out) :
    out.Pairwise (fun a b => tsLe a.timestamp b.timestamp = true)
  ∧ (∀ t, out.filter (fun r => decide (r.timestamp = t))
        = (rows.map (normalizeRecord pt pn)).filter
            (fun r => decide (r.timestamp = t)))
  ∧ ((rows.map (normalizeRecord pt pn)).Pairwise
        (fun a b => tsLe a.timestamp b.timestamp = true)
      → out = rows.map (normalizeRecord pt pn)) := by
  obtain ⟨-, -, rfl⟩ := load_logs_ok h
  refine ⟨?_, ?_, ?_⟩
  · exact List.sorted_mergeSort recLe_trans recLe_total _
  · intro t
    apply filter_mergeSort_eq recLe recLe_trans recLe_total
    intro a b ha hb
    simp only [decide_eq_true_iff] at ha hb
    simp [recLe, ha, hb, tsLe_refl]
  · intro hsorted
    exact List.mergeSort_of_sorted hsorted

/-- Witness for C4: loading the one-row sample CSV succeeds and its output
is sorted; the `load_logs … = ok …` hypothesis is discharged concretely. -/
theorem load_logs_sort_spec_witness :
    load_logs sampleParseTs sampleParseMs ("in.csv") true REQUIRED_COLUMNS [sampleRaw]
        = Except.ok [sampleLog]
  ∧ [sampleLog].Pairwise (fun a b => tsLe a.timestamp b.timestamp = true) := by
  have hv : validate_logs REQUIRED_COLUMNS = none :=
    (validate_logs_eq_none_iff _).mpr (by decide)
  have h : load_logs sampleParseTs sampleParseMs ("in.csv") true REQUIRED_COLUMNS
      [sampleRaw] = Except.ok [sampleLog] := by
    simp [load_logs, hv, sampleLog]
  exact ⟨h, (load_logs_sort_spec _ _ _ _ _ _ h).1⟩

/-! ## Claim C3: loading never raises on row-level data -/

/-- **C3**: with a valid schema the loader is total: the output is a
permutation of the normalized rows, so no record is dropped; a timestamp or
latency that fails to parse is kept with the missing marker `none` (never
zero); and `load_logs` returns an error only for a missing input file or
missing required columns. -/
theorem load_logs_row_safety :
    (∀ (pt : String → Option Nat) (pn : String → Option Int) (path : String)
        (cols : List String) (rows : List RawRecord),
        (∀ c ∈ REQUIRED_COLUMNS, c ∈ cols) →
        ∃ out, load_logs pt pn path true cols rows = Except.ok out
          ∧ out.Perm (rows.map (normalizeRecord pt pn)))
  ∧ (∀ (pt : String → Option Nat) (pn : String → Option Int) (path : String)
        (ex : Bool) (cols : List String) (rows : List RawRecord) (e : LoadError),
        load_logs pt pn path ex cols rows = Except.error e →
        ex = false ∨ ∃ c ∈ REQUIRED_COLUMNS, c ∉ cols)
  ∧ (∀ (pt : String → Option Nat) (pn : String → Option Int) (r : RawRecord),
        pt r.timestamp = none → (normalizeRecord pt pn r).timestamp = none)
  ∧ (∀ (pt : String → Option Nat) (pn : String → Option Int) (r : RawRecord),
        pn r.response_ms = none → (normalizeRecord pt pn r).response_ms = none) := by
  refine ⟨?_, ?_, fun pt pn r h => h, fun pt pn r h => h⟩
  · intro pt pn path cols rows hcols
    have hv : validate_logs cols = none := (validate_logs_eq_none_iff cols).mpr hcols
    refine ⟨(rows.map (normalizeRecord pt pn)).mergeSort recLe, ?_,
      List.mergeSort_perm _ _⟩
    simp [load_logs, hv]
  · intro pt pn path ex cols rows e h
    cases ex with
    | false => exact Or.inl rfl
    | true =>
      right
      cases hv : validate_logs cols with
      | none => simp [load_logs, hv] at h
      | some m =>
        have hne : ¬ validate_logs cols = none := by simp [hv]
        rw [validate_logs_eq_none_iff] at hne
        push_neg at hne
        exact hne

/-- Witness for C3: the row whose timestamp and latency both fail to parse
still loads (schema hypothesis discharged at the full column set). -/
theorem load_logs_row_safety_witness :
    (∀ c ∈ REQUIRED_COLUMNS, c ∈ REQUIRED_COLUMNS)
  ∧ ∃ out, load_logs sampleParseTs sampleParseMs ("in.csv") true REQUIRED_COLUMNS
        [sampleBadRaw] = Except.ok out
      ∧ out.Perm ([sampleBadRaw].map (normalizeRecord sampleParseTs sampleParseMs)) :=
  ⟨by decide, load_logs_row_safety.1 _ _ _ _ _ (by decide)⟩

/-! ## Claim C10: unparseable timestamps sort last and miss the pivot -/

theorem datedRows_filter_isSome (df : List LogRecord) :
    datedRows (df.filter (fun r => r.timestamp.isSome)) = datedRows df := by
  induction df with
  | nil => rfl
  | cons r rest ih =>
    simp only [datedRows, List.filter_cons, List.filterMap_cons] at *
    cases hr : r.timestamp with
    | none => simp [hr, ih]
    | some t => simp [hr, ih]

/-- **C10**: in `load_logs` output every record with an unparseable
timestamp comes after all records with parseable ones, and such records
contribute to no date row: deleting them leaves `build_daily_summary`'s
output unchanged. -/
theorem missing_timestamps_spec :
    (∀ (pt : String → Option Nat) (pn : String → Option Int) (path : String)
        (cols : List String) (rows : List RawRecord) (out : List LogRecord),
        load_logs pt pn path true cols rows = Except.ok out →
        out.Pairwise (fun a b => a.timestamp = none → b.timestamp = none))
  ∧ (∀ df : List LogRecord,
        build_daily_summary df
          = build_daily_summary (df.filter (fun r => r.timestamp.isSome))) := by
  constructor
  · intro pt pn path cols rows out h
    obtain ⟨-, -, rfl⟩ := load_logs_ok h
    have hs := List.sorted_mergeSort recLe_trans recLe_total
        (rows.map (normalizeRecord pt pn))
    refine hs.imp ?_
    intro a b hab hnone
    cases hb : b.timestamp with
    | none => rfl
    | some t =>
      rw [recLe, hnone, hb] at hab
      simp [tsLe] at hab
  · intro df
    rw [build_daily_summary, build_daily_summary, datedRows_filter_isSome]

/-- Witness for C10: the loader applied to the single bad-timestamp row,
with the `ok` hypothesis discharged concretely. -/
theorem missing_timestamps_spec_witness :
    load_logs sampleParseTs sampleParseMs ("in.csv") true REQUIRED_COLUMNS
        [sampleBadRaw]
      = Except.ok [normalizeRecord sampleParseTs sampleParseMs sampleBadRaw]
  ∧ [normalizeRecord sampleParseTs sampleParseMs sampleBadRaw].Pairwise
        (fun a b => a.timestamp = none → b.timestamp = none) := by
  have hv : validate_logs REQUIRED_COLUMNS = none :=
    (validate_logs_eq_none_iff _).mpr (by decide)
  have h : load_logs sampleParseTs sampleParseMs ("in.csv") true REQUIRED_COLUMNS
      [sampleBadRaw]
      = Except.ok [normalizeRecord sampleParseTs sampleParseMs sampleBadRaw] := by
    simp [load_logs, hv]
  exact ⟨h, missing_timestamps_spec.1 _ _ _ _ _ _ h⟩

/-! ## Claim C7: the summary-sheet layout -/

/-- **C7 as stated is false at a concrete size**: with one row in each
count table, the gap between the Key Metrics table (title row 1, header
row 2, data rows 3 and 4) and the Counts-by-Level title (row 6) is one
blank row, and likewise before the Counts-by-Service title — not the three
rows the claim asserts. -/
theorem summary_layout_gap_counterexample :
    gapRows (summaryLayout 1 1).1 (summaryLayout 1 1).2.1 = 1
  ∧ gapRows (summaryLayout 1 1).2.1 (summaryLayout 1 1).2.2 = 1
  ∧ (1 : Nat) ≠ 3 := by
  refine ⟨rfl, rfl, by decide⟩

/-- **C7 amended**: each of the three stacked tables is a title row, then a
header row, then its data rows, then a fixed ONE-row gap before the next
table's title; with that layout, no two tables' rows overlap for any table
sizes. -/
theorem summary_layout_spec (L S : Nat) :
    (summaryLayout L S).1.headerRow = (summaryLayout L S).1.titleRow + 1
  ∧ (summaryLayout L S).2.1.headerRow = (summaryLayout L S).2.1.titleRow + 1
  ∧ (summaryLayout L S).2.2.headerRow = (summaryLayout L S).2.2.titleRow + 1
  ∧ gapRows (summaryLayout L S).1 (summaryLayout L S).2.1 = 1
  ∧ gapRows (summaryLayout L S).2.1 (summaryLayout L S).2.2 = 1
  ∧ lastRow (summaryLayout L S).1 < (summaryLayout L S).2.1.titleRow
  ∧ lastRow (summaryLayout L S).2.1 < (summaryLayout L S).2.2.titleRow := by
  refine ⟨rfl, rfl, ?_, rfl, ?_, ?_, ?_⟩
  · simp only [summaryLayout]
    omega
  · simp only [summaryLayout, gapRows, lastRow]
    omega
  · simp only [summaryLayout, lastRow]
    omega
  · simp only [summaryLayout, lastRow]
    omega

/-! ## Claim C8: orchestrator exit codes -/

/-- **C8 as stated is false**: with a missing input file, `main()` catches
the `FileNotFoundError` in its generic `except` handler and returns exit
code 1 — the same path as any other error — not the distinct code 2 the
claim asserts. -/
theorem main_exit_counterexample :
    (mainRun (fun _ => none) (fun _ => none) ("missing.csv") false [] []
        none none true).exitCode = 1
  ∧ ¬ (mainRun (fun _ => none) (fun _ => none) ("missing.csv") false [] []
        none none true).exitCode = 2 :=
  ⟨rfl, by decide⟩

/-- **C8 amended**: `main()` exits 0 on success — including the zero-rows-
after-filtering case, where no output file is written — and 1 for every
failure: missing input, schema errors, and output-write failures alike.
No run exits with any code other than 0 or 1. -/
theorem main_exit_codes (pt : String → Option Nat) (pn : String → Option Int)
    (path : String) (cols : List String) (rows : List RawRecord)
    (svc lvl : Option String) :
    (∀ wOk, mainRun pt pn path false cols rows svc lvl wOk = ⟨1, false⟩)
  ∧ (∀ ex wOk, (mainRun pt pn path ex cols rows svc lvl wOk).exitCode = 0
       ∨ (mainRun pt pn path ex cols rows svc lvl wOk).exitCode = 1)
  ∧ (∀ df, load_csv pt pn path true cols rows = Except.ok df →
       ((mainApplyFilters df svc lvl).isEmpty = true →
          ∀ wOk, mainRun pt pn path true cols rows svc lvl wOk = ⟨0, false⟩)
     ∧ ((mainApplyFilters df svc lvl).isEmpty = false →
          mainRun pt pn path true cols rows svc lvl true = ⟨0, true⟩
        ∧ mainRun pt pn path true cols rows svc lvl false = ⟨1, false⟩)) := by
  refine ⟨?_, ?_, ?_⟩
  · intro wOk
    simp [mainRun, load_csv]
  · intro ex wOk
    unfold mainRun
    cases h : load_csv pt pn path ex cols rows with
    | error e => simp
    | ok df =>
      by_cases he : (mainApplyFilters df svc lvl).isEmpty
      · simp [he]
      · cases wOk <;> simp [he]
  · intro df h
    constructor
    · intro he wOk
      simp [mainRun, h, he]
    · intro he
      constructor <;> simp [mainRun, h, he]

/-- Witness for C8 (amended): the empty dataset loads, filters to zero
rows, and the run exits 0 without writing a report; the `ok` hypothesis is
discharged concretely. -/
theorem main_exit_codes_witness :
    load_csv sampleParseTs sampleParseMs ("in.csv") true REQUIRED_COLUMNS []
        = Except.ok []
  ∧ (mainApplyFilters [] none none).isEmpty = true
  ∧ mainRun sampleParseTs sampleParseMs ("in.csv") true REQUIRED_COLUMNS []
        none none true = ⟨0, false⟩ := by
  have hv : validate_logs REQUIRED_COLUMNS = none :=
    (validate_logs_eq_none_iff _).mpr (by decide)
  have h : load_csv sampleParseTs sampleParseMs ("in.csv") true REQUIRED_COLUMNS []
      = Except.ok [] := by
    simp [load_csv, hv]
  exact ⟨h,
    rfl,
    ((main_exit_codes sampleParseTs sampleParseMs ("in.csv") REQUIRED_COLUMNS []
        none none).2.2 [] h).1 rfl true⟩

end LogReport
